import Mathlib

/-!
Shallow embedding of the numru construction core (`src/macros.rs`):
the `arr!` literal-flattening paths (rank 1, 2, 3) and the `zeros!`
zero-fill paths, together with the `Array`/`Shape`/`Ix` constructor
contract they funnel through.

Rust `Vec<T>` becomes `List α`, `usize` becomes `Nat`, a panicking
computation becomes a `PanicOr` value carrying the panic message, and a
fallible constructor becomes `Except`.
-/

namespace Numru

/-- A computation that either panics with a message or yields a value.
Models the fact that `unwrap` turns an `Err`/`None` into a process panic. -/
inductive PanicOr (α : Type) where
  | panicked (msg : String)
  | value (v : α)
deriving DecidableEq

/-- Sequencing of possibly-panicking computations: a panic propagates. -/
def PanicOr.bind {α β : Type} : PanicOr α → (α → PanicOr β) → PanicOr β
  | .panicked m, _ => .panicked m
  | .value a, f => f a

/-- The message produced by Rust's `Result::unwrap` on an `Err`. -/
def unwrapErrMsg : String := "called Result::unwrap on an Err value"

/-- The message produced by unwrapping a failed `try_into` conversion. -/
def tryIntoFailMsg : String := "called Result::unwrap on an Err value: try_into"

/-- `Result::unwrap`: an `Ok` yields its value, an `Err` panics. -/
def unwrapExcept {ε α : Type} : Except ε α → PanicOr α
  | .ok a => .value a
  | .error _ => .panicked unwrapErrMsg

/-- Unwrap of the `try_into` conversion of the shape vector. -/
def unwrapTryInto {α : Type} : Option α → PanicOr α
  | some a => .value a
  | none => .panicked tryIntoFailMsg

/-- Models `Ix<R>`, a wrapper around a fixed-size `[usize; R]`:
a list of dimensions whose length is exactly the rank `R`. -/
def Ix (R : Nat) : Type := {l : List Nat // l.length = R}

/-- Models `Vec<usize>::try_into::<[usize; R]>()`: succeeds exactly when the
vector's length equals `R`. Every `arr!`/`zeros!` arm unwraps this result. -/
def tryIntoIx (R : Nat) (l : List Nat) : Option (Ix R) :=
  if h : l.length = R then some ⟨l, h⟩ else none

/-- The shape of an array: its ordered list of per-dimension sizes. -/
structure Shape where
  dims : List Nat
deriving DecidableEq

/-- `Shape::new` wraps an `Ix<R>` into a `Shape`. -/
def Shape.new {R : Nat} (ix : Ix R) : Shape := ⟨ix.val⟩

/-- The Array Target: flat data plus shape. -/
structure Array (α : Type) where
  data : List α
  shape : Shape
deriving DecidableEq

/-- The construction error of the Array Target's validating constructor. -/
inductive ArrayError where
  | shapeMismatch
deriving DecidableEq

/-- Modelled from the spec: the Array Target's validating constructor
`Array::new(data, shape) -> Result<Array, ShapeMismatchError>` (spec section
4.3) is code of this repository not under `src/`; the spec states its
precondition check is `len(flatData) == product(shape.dims)`, returning a
typed shape-mismatch error when it fails. -/
def Array.new {α : Type} (data : List α) (shape : Shape) :
    Except ArrayError (Array α) :=
  if data.length = shape.dims.prod then .ok ⟨data, shape⟩
  else .error .shapeMismatch

/-- `flatten` from the rank-2 `arr!` arm:
`nested.iter().flat_map(|inner| inner.clone()).collect()`. -/
def flatten {α : Type} (nested : List (List α)) : List α :=
  nested.flatten

/-- `get_shape` from the rank-2 `arr!` arm: start from the outer length and
push the first row's length when a first row exists. -/
def get_shape {α : Type} (nested : List (List α)) : List Nat :=
  let shape := [nested.length]
  match nested.head? with
  | some first => shape ++ [first.length]
  | none => shape

/-- `flatten_3d` from the rank-3 `arr!` arm:
`nested.iter().flat_map(|inner| inner.iter().flat_map(|v| v.clone()))`. -/
def flatten_3d {α : Type} (nested : List (List (List α))) : List α :=
  (nested.map (fun inner => inner.flatten)).flatten

/-- `get_shape_3d` from the rank-3 `arr!` arm: outer length, then the first
block's length when present, then the first block's first row's length. -/
def get_shape_3d {α : Type} (nested : List (List (List α))) : List Nat :=
  let shape := [nested.length]
  match nested.head? with
  | none => shape
  | some first =>
    let shape := shape ++ [first.length]
    match first.head? with
    | none => shape
    | some second => shape ++ [second.length]

/-- The rank-1 arm of `arr!`: data verbatim, shape `[data.len()]`, convert
the shape vector into `Ix<1>` (unwrapping) and hand both to `Array::new`
(unwrapping). -/
def arr_1d {α : Type} (data : List α) : PanicOr (Array α) :=
  let shape := [data.length]
  (unwrapTryInto (tryIntoIx 1 shape)).bind fun ix =>
    unwrapExcept (Array.new data (Shape.new ix))

/-- The rank-2 arm of `arr!`: flatten the rows, infer the shape via
`get_shape`, convert into `Ix<2>` (unwrapping) and hand both to `Array::new`
(unwrapping). -/
def arr_2d {α : Type} (nested : List (List α)) : PanicOr (Array α) :=
  let data := flatten nested
  let shape := get_shape nested
  (unwrapTryInto (tryIntoIx 2 shape)).bind fun ix =>
    unwrapExcept (Array.new data (Shape.new ix))

/-- The rank-3 arm of `arr!`: flatten the blocks via `flatten_3d`, infer the
shape via `get_shape_3d`, convert into `Ix<3>` (unwrapping) and hand both to
`Array::new` (unwrapping). -/
def arr_3d {α : Type} (nested : List (List (List α))) : PanicOr (Array α) :=
  let data := flatten_3d nested
  let shape := get_shape_3d nested
  (unwrapTryInto (tryIntoIx 3 shape)).bind fun ix =>
    unwrapExcept (Array.new data (Shape.new ix))

/-- The one-dimension arm of `zeros!`: shape `[d1]`, data of
`shape.iter().product()` copies of the type's default value. -/
def zeros_1d {α : Type} (zero : α) (d1 : Nat) : PanicOr (Array α) :=
  let shape := [d1]
  let size := shape.prod
  let data := List.replicate size zero
  (unwrapTryInto (tryIntoIx 1 shape)).bind fun ix =>
    unwrapExcept (Array.new data (Shape.new ix))

/-- The two-dimension arm of `zeros!`. -/
def zeros_2d {α : Type} (zero : α) (d1 d2 : Nat) : PanicOr (Array α) :=
  let shape := [d1, d2]
  let size := shape.prod
  let data := List.replicate size zero
  (unwrapTryInto (tryIntoIx 2 shape)).bind fun ix =>
    unwrapExcept (Array.new data (Shape.new ix))

/-- The three-dimension arm of `zeros!`. -/
def zeros_3d {α : Type} (zero : α) (d1 d2 d3 : Nat) : PanicOr (Array α) :=
  let shape := [d1, d2, d3]
  let size := shape.prod
  let data := List.replicate size zero
  (unwrapTryInto (tryIntoIx 3 shape)).bind fun ix =>
    unwrapExcept (Array.new data (Shape.new ix))

/-- The message of the catch-all `zeros!` arm, naming the dimension count. -/
def unsupportedRankMsg (dimension : Nat) : String :=
  "Unsupported number of dimensions (only 1D, 2D, and 3D are supported): " ++
    toString dimension

/-- The whole `zeros!` surface: arm selection is by the number of dimension
arguments; one, two or three dimensions reach the corresponding fill arm,
any other count reaches the catch-all arm, which panics with a message
naming the offending dimension count. -/
def zeros {α : Type} (zero : α) (dims : List Nat) : PanicOr (Array α) :=
  match dims with
  | [d1] => zeros_1d zero d1
  | [d1, d2] => zeros_2d zero d1 d2
  | [d1, d2, d3] => zeros_3d zero d1 d2 d3
  | other => .panicked (unsupportedRankMsg other.length)

/-! ### Shared evaluation lemmas -/

/-- Flattening a list of rows of constant length `C` yields `R * C` scalars. -/
theorem length_flatten_const {α : Type} (L : List (List α)) (C : Nat)
    (h : ∀ row ∈ L, row.length = C) : L.flatten.length = L.length * C := by
  induction L with
  | nil => simp
  | cons r rest ih =>
    have hr : r.length = C := h r (by simp)
    have hrest := ih (fun row hm => h row (by simp [hm]))
    simp only [List.flatten_cons, List.length_append, List.length_cons, hr, hrest]
    ring

/-- `get_shape` on a non-empty nesting is the outer length then the first
row's length. -/
theorem get_shape_cons {α : Type} (r : List α) (rest : List (List α)) :
    get_shape (r :: rest) = [rest.length + 1, r.length] := by
  simp [get_shape]

/-- `get_shape_3d` on a nesting whose first block is non-empty is the outer
length, the first block's length, then the first block's first row's length. -/
theorem get_shape_3d_cons {α : Type} (q : List α) (qrest : List (List α))
    (rest : List (List (List α))) :
    get_shape_3d ((q :: qrest) :: rest) =
      [rest.length + 1, qrest.length + 1, q.length] := by
  simp [get_shape_3d]

/-- Evaluation of the rank-1 arm: it always succeeds, verbatim. -/
theorem arr_1d_eval {α : Type} (v : List α) :
    arr_1d v = .value ⟨v, ⟨[v.length]⟩⟩ := by
  simp [arr_1d, tryIntoIx, unwrapTryInto, PanicOr.bind, Shape.new, Array.new,
    unwrapExcept]

/-- Evaluation of the rank-2 arm on a rectangular nesting. -/
theorem arr_2d_eval {α : Type} (row0 : List α) (rest : List (List α)) (C : Nat)
    (hrect : ∀ r ∈ row0 :: rest, r.length = C) :
    arr_2d (row0 :: rest) =
      .value ⟨(row0 :: rest).flatten, ⟨[rest.length + 1, C]⟩⟩ := by
  have hcond : row0.length + (List.map List.length rest).sum = (rest.length + 1) * C := by
    have hlen := length_flatten_const (row0 :: rest) C hrect
    simpa using hlen
  have hshape : get_shape (row0 :: rest) = [rest.length + 1, C] := by
    rw [get_shape_cons, hrect row0 (by simp)]
  simp [arr_2d, flatten, hshape, tryIntoIx, unwrapTryInto, PanicOr.bind,
    Shape.new, Array.new, unwrapExcept, hcond]

/-- Flattening a rectangular 3-level nesting yields `D * (R * C)` scalars. -/
theorem length_flatten_3d_const {α : Type} (L : List (List (List α))) (R C : Nat)
    (hR : ∀ b ∈ L, b.length = R) (hC : ∀ b ∈ L, ∀ r ∈ b, r.length = C) :
    (flatten_3d L).length = L.length * (R * C) := by
  unfold flatten_3d
  have hmap : ∀ x ∈ L.map (fun inner => inner.flatten), x.length = R * C := by
    intro x hx
    rcases List.mem_map.mp hx with ⟨b, hb, hbx⟩
    have := length_flatten_const b C (hC b hb)
    rw [← hbx, this, hR b hb]
  simpa using length_flatten_const (L.map (fun inner => inner.flatten)) (R * C) hmap

/-- The shape inferred on a rectangular 3-level nesting. -/
theorem get_shape_3d_rect {α : Type} (row00 : List α) (brest : List (List α))
    (rest : List (List (List α))) (R C : Nat)
    (hR : ∀ b ∈ (row00 :: brest) :: rest, b.length = R)
    (hC : ∀ b ∈ (row00 :: brest) :: rest, ∀ r ∈ b, r.length = C) :
    get_shape_3d ((row00 :: brest) :: rest) = [rest.length + 1, R, C] := by
  have h1 : (row00 :: brest).length = R := hR (row00 :: brest) (by simp)
  have h2 : row00.length = C := hC (row00 :: brest) (by simp) row00 (by simp)
  rw [get_shape_3d_cons, ← h2]
  simp only [List.length_cons] at h1
  rw [h1]

/-- Evaluation of the rank-3 arm on a rectangular nesting. -/
theorem arr_3d_eval {α : Type} (row00 : List α) (brest : List (List α))
    (rest : List (List (List α))) (R C : Nat)
    (hR : ∀ b ∈ (row00 :: brest) :: rest, b.length = R)
    (hC : ∀ b ∈ (row00 :: brest) :: rest, ∀ r ∈ b, r.length = C) :
    arr_3d ((row00 :: brest) :: rest) =
      .value ⟨flatten_3d ((row00 :: brest) :: rest), ⟨[rest.length + 1, R, C]⟩⟩ := by
  have hlen := length_flatten_3d_const ((row00 :: brest) :: rest) R C hR hC
  have hshape := get_shape_3d_rect row00 brest rest R C hR hC
  simp only [List.length_cons] at hlen
  simp [arr_3d, hshape, tryIntoIx, unwrapTryInto, PanicOr.bind,
    Shape.new, Array.new, unwrapExcept, hlen, Nat.mul_assoc]

/-- Assembling a shape vector of the expected rank with data whose length
disagrees with the shape product yields the unwrap panic: `try_into`
succeeds, `Array::new` returns the typed error, and the unwrap panics. -/
theorem assemble_panics {α : Type} (R : Nat) (data : List α) (shape : List Nat)
    (hlen : shape.length = R) (hmm : data.length ≠ shape.prod) :
    (unwrapTryInto (tryIntoIx R shape)).bind
      (fun ix => unwrapExcept (Array.new data (Shape.new ix))) =
      .panicked unwrapErrMsg := by
  rw [tryIntoIx, dif_pos hlen]
  show unwrapExcept (Array.new data ⟨shape⟩) = .panicked unwrapErrMsg
  simp [Array.new, hmm, unwrapExcept]

/-- Evaluation of the `zeros!` dispatcher on one, two or three dimensions. -/
theorem zeros_eval {α : Type} (zero : α) (dims : List Nat)
    (h : dims.length = 1 ∨ dims.length = 2 ∨ dims.length = 3) :
    zeros zero dims = .value ⟨List.replicate dims.prod zero, ⟨dims⟩⟩ := by
  rcases dims with _ | ⟨a, _ | ⟨b, _ | ⟨c, _ | ⟨d, rest⟩⟩⟩⟩ <;>
    simp only [List.length_nil, List.length_cons] at h
  · omega
  · simp [zeros, zeros_1d, tryIntoIx, unwrapTryInto, PanicOr.bind, Shape.new,
      Array.new, unwrapExcept]
  · simp [zeros, zeros_2d, tryIntoIx, unwrapTryInto, PanicOr.bind, Shape.new,
      Array.new, unwrapExcept]
  · simp [zeros, zeros_3d, tryIntoIx, unwrapTryInto, PanicOr.bind, Shape.new,
      Array.new, unwrapExcept]
  · omega

/-! ### Claim theorems -/

/-- C1 counterexample: the rank-2 literal `[[1,2],[3]]` has flattened length
3 while the inferred-shape product is 4 (an aggregate mismatch), yet the
construction path reaches the caller as a panic, not as a typed
shape-mismatch result. -/
theorem arr_mismatch_panic_cex :
    (flatten [[1, 2], [(3 : Int)]]).length = 3 ∧
    (get_shape [[1, 2], [(3 : Int)]]).prod = 4 ∧
    arr_2d [[1, 2], [(3 : Int)]] = .panicked unwrapErrMsg :=
  ⟨rfl, rfl, rfl⟩

/-- C1 amended: on an aggregate length mismatch, `Array::new` does return
the typed shape-mismatch error, but the nested `arr!` arms immediately
unwrap that result, so the caller observes a panic rather than a typed
construction error. -/
theorem arr_mismatch_unwrapped_panic {α : Type} (row0 : List α)
    (rest : List (List α)) (row00 : List α) (brest : List (List α))
    (rest3 : List (List (List α)))
    (h2 : (flatten (row0 :: rest)).length ≠ (get_shape (row0 :: rest)).prod)
    (h3 : (flatten_3d ((row00 :: brest) :: rest3)).length ≠
      (get_shape_3d ((row00 :: brest) :: rest3)).prod) :
    (Array.new (flatten (row0 :: rest)) ⟨get_shape (row0 :: rest)⟩ =
        .error .shapeMismatch ∧
      arr_2d (row0 :: rest) = .panicked unwrapErrMsg) ∧
    (Array.new (flatten_3d ((row00 :: brest) :: rest3))
        ⟨get_shape_3d ((row00 :: brest) :: rest3)⟩ = .error .shapeMismatch ∧
      arr_3d ((row00 :: brest) :: rest3) = .panicked unwrapErrMsg) := by
  refine ⟨⟨by simp [Array.new, h2], ?_⟩, ⟨by simp [Array.new, h3], ?_⟩⟩
  · exact assemble_panics 2 (flatten (row0 :: rest)) (get_shape (row0 :: rest))
      (by rw [get_shape_cons]; rfl) h2
  · exact assemble_panics 3 (flatten_3d ((row00 :: brest) :: rest3))
      (get_shape_3d ((row00 :: brest) :: rest3))
      (by rw [get_shape_3d_cons]; rfl) h3

/-- C1 witness for the amended claim: concrete jagged rank-2 and rank-3
literals whose aggregate lengths mismatch panic at the unwrap. -/
theorem arr_mismatch_unwrapped_panic_witness :
    arr_2d [[1, 2], [(3 : Int)]] = .panicked unwrapErrMsg ∧
    arr_3d [[[1, 2], [(3 : Int)]]] = .panicked unwrapErrMsg := by
  have h := arr_mismatch_unwrapped_panic [1, 2] [[(3 : Int)]] [1, 2] [[(3 : Int)]]
    [] (by decide) (by decide)
  exact ⟨h.1.2, h.2.2⟩

/-- C2: for a rectangular rank-2 nested literal with rows of constant length
`C`, the rank-2 path yields shape `[R, C]` and flat data of length `R * C`
equal to the in-order (row-major) concatenation of the rows. -/
theorem arr_2d_rectangular_law {α : Type} (row0 : List α)
    (rest : List (List α)) (C : Nat)
    (hrect : ∀ r ∈ row0 :: rest, r.length = C) :
    arr_2d (row0 :: rest) =
      .value ⟨(row0 :: rest).flatten, ⟨[(row0 :: rest).length, C]⟩⟩ ∧
    (row0 :: rest).flatten.length = (row0 :: rest).length * C :=
  ⟨arr_2d_eval row0 rest C hrect, length_flatten_const (row0 :: rest) C hrect⟩

/-- C2 witness: a concrete 3-by-2 literal. -/
theorem arr_2d_rectangular_law_witness :
    arr_2d [[1, 2], [3, 4], [(5 : Int), 6]] =
      .value ⟨[1, 2, 3, 4, 5, 6], ⟨[3, 2]⟩⟩ :=
  (arr_2d_rectangular_law [1, 2] [[3, 4], [(5 : Int), 6]] 2 (by decide)).1

/-- C3: for a rectangular rank-3 nested literal with `D` blocks of `R` rows
of `C` columns, the rank-3 path yields shape `[D, R, C]` and flat data equal
to the depth-first (outer-to-middle-to-inner, left-to-right) concatenation
of the leaf scalars, of length `D * (R * C)`. -/
theorem arr_3d_rectangular_law {α : Type} (row00 : List α)
    (brest : List (List α)) (rest : List (List (List α))) (R C : Nat)
    (hR : ∀ b ∈ (row00 :: brest) :: rest, b.length = R)
    (hC : ∀ b ∈ (row00 :: brest) :: rest, ∀ r ∈ b, r.length = C) :
    arr_3d ((row00 :: brest) :: rest) =
      .value ⟨flatten_3d ((row00 :: brest) :: rest),
        ⟨[((row00 :: brest) :: rest).length, R, C]⟩⟩ ∧
    (flatten_3d ((row00 :: brest) :: rest)).length =
      ((row00 :: brest) :: rest).length * (R * C) :=
  ⟨arr_3d_eval row00 brest rest R C hR hC,
    length_flatten_3d_const ((row00 :: brest) :: rest) R C hR hC⟩

/-- C3 witness: a concrete 2-by-2-by-2 literal. -/
theorem arr_3d_rectangular_law_witness :
    arr_3d [[[1, 2], [3, 4]], [[5, 6], [(7 : Int), 8]]] =
      .value ⟨[1, 2, 3, 4, 5, 6, 7, 8], ⟨[2, 2, 2]⟩⟩ :=
  (arr_3d_rectangular_law [1, 2] [[3, 4]] [[[5, 6], [(7 : Int), 8]]] 2 2
    (by decide) (by decide)).1

/-- C4: the rank-1 path is a round-trip: for a non-empty flat sequence `v`
of `n` scalars, the produced data is `v` verbatim and the shape is `[n]`. -/
theorem arr_1d_roundtrip {α : Type} (v : List α) (_hne : v ≠ []) :
    arr_1d v = .value ⟨v, ⟨[v.length]⟩⟩ :=
  arr_1d_eval v

/-- C4 witness: a concrete 4-element sequence. -/
theorem arr_1d_roundtrip_witness :
    arr_1d [1, 2, 3, (4 : Int)] = .value ⟨[1, 2, 3, 4], ⟨[4]⟩⟩ :=
  arr_1d_roundtrip [1, 2, 3, (4 : Int)] (by decide)

/-- C5: with one, two or three dimensions, `zeros!` yields flat data of
length exactly the product of the dimensions, every element equal to the
type's zero value, and a shape equal to the given dimensions verbatim; a
zero dimension yields empty data while the shape records the zero. -/
theorem zeros_fill_law {α : Type} (zero : α) (dims : List Nat)
    (h : dims.length = 1 ∨ dims.length = 2 ∨ dims.length = 3) :
    zeros zero dims = .value ⟨List.replicate dims.prod zero, ⟨dims⟩⟩ ∧
    (List.replicate dims.prod zero).length = dims.prod ∧
    (∀ x ∈ List.replicate dims.prod zero, x = zero) ∧
    ((0 : Nat) ∈ dims → List.replicate dims.prod zero = ([] : List α)) := by
  refine ⟨zeros_eval zero dims h, List.length_replicate _ _, ?_, ?_⟩
  · intro x hx
    exact List.eq_of_mem_replicate hx
  · intro h0
    rw [List.prod_eq_zero h0]
    rfl

/-- C5 witness: a positive 3-by-2 fill and a degenerate fill with a zero
dimension. -/
theorem zeros_fill_law_witness :
    zeros (0 : Int) [3, 2] = .value ⟨[0, 0, 0, 0, 0, 0], ⟨[3, 2]⟩⟩ ∧
    zeros (0 : Int) [2, 0, 3] = .value ⟨[], ⟨[2, 0, 3]⟩⟩ := by
  have h1 := zeros_fill_law (0 : Int) [3, 2] (by simp)
  have h2 := zeros_fill_law (0 : Int) [2, 0, 3] (by simp)
  exact ⟨h1.1, h2.1⟩

/-- C6: with four or more dimension arguments, `zeros!` fails immediately
and unconditionally with the unsupported-rank panic whose message names the
offending dimension count, and never returns a built array. -/
theorem zeros_unsupported_rank_fails {α : Type} (zero : α) (dims : List Nat)
    (h : 4 ≤ dims.length) :
    zeros zero dims = .panicked (unsupportedRankMsg dims.length) ∧
    ∀ x : Array α, zeros zero dims ≠ .value x := by
  rcases dims with _ | ⟨a, _ | ⟨b, _ | ⟨c, _ | ⟨d, rest⟩⟩⟩⟩
  · simp at h
  · simp at h
  · simp at h
  · simp at h
  · refine ⟨rfl, fun x hx => ?_⟩
    exact PanicOr.noConfusion hx

/-- C6 witness: four dimensions panic with the message naming the count 4. -/
theorem zeros_unsupported_rank_fails_witness :
    zeros (0 : Int) [1, 2, 3, 4] = .panicked
      "Unsupported number of dimensions (only 1D, 2D, and 3D are supported): 4" :=
  (zeros_unsupported_rank_fails (0 : Int) [1, 2, 3, 4] (by simp)).1

/-- C7: the inferred inner dimensions come only from the first element at
each nesting level: the rank-2 shape is `[len(outer), len(outer[0])]`, the
rank-3 shape is `[len(outer), len(outer[0]), len(outer[0][0])]`, and
replacing all later sibling sub-sequences (keeping only their count) leaves
the inferred shape unchanged. -/
theorem shape_first_element_only {α : Type} (row0 : List α)
    (rest : List (List α)) (row00 : List α) (brest : List (List α))
    (rest3 : List (List (List α))) :
    get_shape (row0 :: rest) = [(row0 :: rest).length, row0.length] ∧
    get_shape_3d ((row00 :: brest) :: rest3) =
      [((row00 :: brest) :: rest3).length, (row00 :: brest).length, row00.length] ∧
    (∀ rest2 : List (List α), rest2.length = rest.length →
      get_shape (row0 :: rest2) = get_shape (row0 :: rest)) ∧
    (∀ rest4 : List (List (List α)), rest4.length = rest3.length →
      get_shape_3d ((row00 :: brest) :: rest4) =
        get_shape_3d ((row00 :: brest) :: rest3)) := by
  refine ⟨by simp [get_shape_cons], by simp [get_shape_3d_cons], ?_, ?_⟩
  · intro rest2 hlen
    rw [get_shape_cons, get_shape_cons, hlen]
  · intro rest4 hlen
    rw [get_shape_3d_cons, get_shape_3d_cons, hlen]

/-- C7 witness: concrete shapes from first elements only, with a jagged
sibling swapped out without changing the inferred shape. -/
theorem shape_first_element_only_witness :
    get_shape [[1, 2], [3, 4, (5 : Int)]] = [2, 2] ∧
    get_shape [[1, 2], [(9 : Int)]] = get_shape [[1, 2], [3, 4, (5 : Int)]] ∧
    get_shape_3d [[[1, 2], [3]], [[(9 : Int)]]] = [2, 2, 2] := by
  have h := shape_first_element_only [1, 2] [[3, 4, (5 : Int)]] [1, 2] [[3]]
    [[[(9 : Int)]]]
  exact ⟨h.1, h.2.2.1 [[(9 : Int)]] rfl, h.2.1⟩

/-- C8: the jagged literal `[[1,2],[3,4,5],[6]]` (row lengths 2, 3, 1) has 6
leaves, which matches the product of the first-row-inferred shape `[3,2]`,
so construction succeeds with no error, yielding a structurally incorrect
but validated array. -/
theorem arr_2d_jagged_accepted :
    ([[1, 2], [3, 4, 5], [(6 : Int)]].map List.length = [2, 3, 1]) ∧
    get_shape [[1, 2], [3, 4, 5], [(6 : Int)]] = [3, 2] ∧
    (flatten [[1, 2], [3, 4, 5], [(6 : Int)]]).length = 6 ∧
    (get_shape [[1, 2], [3, 4, 5], [(6 : Int)]]).prod = 6 ∧
    arr_2d [[1, 2], [3, 4, 5], [(6 : Int)]] =
      .value ⟨[1, 2, 3, 4, 5, 6], ⟨[3, 2]⟩⟩ :=
  ⟨rfl, rfl, rfl, rfl, rfl⟩

/-- C9: for rectangular literals of each rank the flattened length equals
the product of the inferred shape, so `Array::new` succeeds and the unwrap
in each `arr!` arm is unreachable: every arm returns a value. -/
theorem arr_unwrap_unreachable {α : Type} (v0 : α) (vrest : List α)
    (row0 : List α) (rest2 : List (List α)) (C2 : Nat)
    (row00 : List α) (brest : List (List α)) (rest3 : List (List (List α)))
    (R C : Nat)
    (h2 : ∀ r ∈ row0 :: rest2, r.length = C2)
    (hR : ∀ b ∈ (row00 :: brest) :: rest3, b.length = R)
    (hC : ∀ b ∈ (row00 :: brest) :: rest3, ∀ r ∈ b, r.length = C) :
    ((v0 :: vrest).length = ([(v0 :: vrest).length] : List Nat).prod ∧
      ∃ a1, arr_1d (v0 :: vrest) = .value a1) ∧
    ((flatten (row0 :: rest2)).length = (get_shape (row0 :: rest2)).prod ∧
      ∃ a2, arr_2d (row0 :: rest2) = .value a2) ∧
    ((flatten_3d ((row00 :: brest) :: rest3)).length =
        (get_shape_3d ((row00 :: brest) :: rest3)).prod ∧
      ∃ a3, arr_3d ((row00 :: brest) :: rest3) = .value a3) := by
  refine ⟨⟨by simp, ⟨_, arr_1d_eval _⟩⟩,
    ⟨?_, ⟨_, arr_2d_eval row0 rest2 C2 h2⟩⟩,
    ⟨?_, ⟨_, arr_3d_eval row00 brest rest3 R C hR hC⟩⟩⟩
  · have hl := length_flatten_const (row0 :: rest2) C2 h2
    rw [get_shape_cons, h2 row0 (by simp)]
    simpa [flatten] using hl
  · have hl := length_flatten_3d_const ((row00 :: brest) :: rest3) R C hR hC
    rw [get_shape_3d_rect row00 brest rest3 R C hR hC]
    simpa using hl

/-- C9 witness: concrete rectangular literals of rank 2 and 3 whose
flattened length matches the inferred shape product. -/
theorem arr_unwrap_unreachable_witness :
    (flatten [[1, 2], [3, 4], [(5 : Int), 6]]).length =
      (get_shape [[1, 2], [3, 4], [(5 : Int), 6]]).prod ∧
    (flatten_3d [[[1, 2], [3, 4]], [[5, 6], [(7 : Int), 8]]]).length =
      (get_shape_3d [[[1, 2], [3, 4]], [[5, 6], [(7 : Int), 8]]]).prod := by
  have h := arr_unwrap_unreachable (1 : Int) [2, 3] [1, 2]
    [[3, 4], [(5 : Int), 6]] 2 [1, 2] [[3, 4]] [[[5, 6], [(7 : Int), 8]]] 2 2
    (by decide) (by decide) (by decide)
  exact ⟨h.2.1.1, h.2.2.1⟩

/-- C10: each accepted arm builds a shape vector of exactly its rank — the
nesting grammar guarantees a first element at every level, so the
first-element peeks succeed — and the conversion of the shape vector into
the fixed-length rank-R index always succeeds. -/
theorem shape_rank_entries_exact {α : Type} (v : List α) (row0 : List α)
    (rest2 : List (List α)) (row00 : List α) (brest : List (List α))
    (rest3 : List (List (List α))) (d1 d2 d3 : Nat) :
    (([v.length] : List Nat).length = 1 ∧ (tryIntoIx 1 [v.length]).isSome) ∧
    ((get_shape (row0 :: rest2)).length = 2 ∧
      (tryIntoIx 2 (get_shape (row0 :: rest2))).isSome) ∧
    ((get_shape_3d ((row00 :: brest) :: rest3)).length = 3 ∧
      (tryIntoIx 3 (get_shape_3d ((row00 :: brest) :: rest3))).isSome) ∧
    (([d1] : List Nat).length = 1 ∧ (tryIntoIx 1 [d1]).isSome) ∧
    (([d1, d2] : List Nat).length = 2 ∧ (tryIntoIx 2 [d1, d2]).isSome) ∧
    (([d1, d2, d3] : List Nat).length = 3 ∧
      (tryIntoIx 3 [d1, d2, d3]).isSome) := by
  simp [tryIntoIx, get_shape_cons, get_shape_3d_cons]

/-- C10 witness: concrete inferred shape vectors of rank 2 and 3 convert
successfully into the fixed-length index. -/
theorem shape_rank_entries_exact_witness :
    (tryIntoIx 2 (get_shape [[1, 2], [3, 4], [(5 : Int), 6]])).isSome ∧
    (tryIntoIx 3 (get_shape_3d [[[1, 2]], [[(3 : Int)]]])).isSome := by
  have h := shape_rank_entries_exact [(1 : Int)] [1, 2]
    [[3, 4], [(5 : Int), 6]] [1, 2] [] [[[(3 : Int)]]] 1 2 3
  exact ⟨h.2.1.2, h.2.2.1.2⟩

